import Mathlib

/-!
Shallow embedding of the ClipFlux backend utilities that the specification
covers: the Cloudinary upload handoff (`src/src/utils/cloudinary.js`), the
`ApiResponse` class, and the user-model hooks (`pre("save")` password hashing,
`generateAccessToken`, `generateRefreshToken`).

The upload handoff is an async JavaScript function whose observable behaviour
is: a resolved value (`response` or `null`) or a rejection (when
`fs.unlinkSync` throws inside the `catch` block), plus its side effects on the
local filesystem and its outbound calls to the remote store.  We model the
filesystem as the list of existing paths, the remote store as a function from
path and options to an outcome, and record the log of upload calls and of
`unlinkSync` calls.
-/

/-- Options object passed to `cloudinary.uploader.upload`; the source passes
`{ resource_type : "auto" }`. -/
structure UploadOptions where
  resource_type : String
  deriving Repr, DecidableEq

/-- Result object returned by the remote store on a successful upload
(opaque to the handoff beyond being passed through; we keep the two fields the
spec names). -/
structure UploadResult where
  url : String
  id : String
  deriving Repr, DecidableEq

/-- Behaviour of one call to the remote store's upload capability: either a
result object, or a raised/rejected failure of any kind. -/
inductive StoreResponse where
  | ok : UploadResult → StoreResponse
  | err : StoreResponse
  deriving Repr, DecidableEq

/-- Observable completion of one `uploadToCloudinary` call: the promise
resolves with a value (`response` or `null`), or rejects because an exception
escaped (only `fs.unlinkSync` inside the `catch` block can do that). -/
inductive Outcome where
  | ret : Option UploadResult → Outcome
  | thrown : Outcome
  deriving Repr, DecidableEq

/-- Log of the side-effecting calls one invocation performs: each remote
upload call with its options, and each `fs.unlinkSync` call. -/
structure CallTrace where
  uploads : List (String × UploadOptions)
  unlinks : List String
  deriving Repr, DecidableEq

/-- JavaScript falsiness of the `localfilepath` argument: absent
(`undefined`/`null`) or the empty string. -/
def jsFalsy : Option String → Bool
  | none => true
  | some s => s.isEmpty

/-- Embedding of `uploadToCloudinary` from `src/src/utils/cloudinary.js`.

```js
const uploadToCloudinary = async (localfilepath) => {
    try{
        if(!localfilepath) return null;
        const response = await cloudinary.uploader.upload(localfilepath,{ resource_type : "auto"})
        console.log("File Uploaded successfully",response.url);
        return response;
    }
    catch(error){
       fs.unlinkSync(localfilepath)
       return null;
    }
}
```

`store` is the remote client's behaviour, `files` the set of paths that exist
on local disk.  Returns the outcome, the filesystem afterwards, and the call
trace.  `fs.unlinkSync` on a path that does not exist throws (ENOENT); that
exception arises inside the `catch` block, so it escapes the function. -/
def uploadToCloudinary (store : String → UploadOptions → StoreResponse)
    (files : List String) (localfilepath : Option String) :
    Outcome × List String × CallTrace :=
  match localfilepath with
  | none => (Outcome.ret none, files, ⟨[], []⟩)
  | some p =>
    if p.isEmpty then
      (Outcome.ret none, files, ⟨[], []⟩)
    else
      match store p ⟨"auto"⟩ with
      | StoreResponse.ok r =>
        (Outcome.ret (some r), files, ⟨[(p, ⟨"auto"⟩)], []⟩)
      | StoreResponse.err =>
        if files.contains p then
          (Outcome.ret none, files.filter (fun q => q != p), ⟨[(p, ⟨"auto"⟩)], [p]⟩)
        else
          (Outcome.thrown, files, ⟨[(p, ⟨"auto"⟩)], [p]⟩)

/-- Embedding of the `ApiResponse` class from `src/src/utils/ApiResponse.js`:
`constructor(statuscode, data, message = "success")` stores the three fields
and sets `success = statuscode < 400`.  `message` is `none` when the caller
omits the argument. -/
structure ApiResponse (α : Type) where
  data : α
  statuscode : Int
  message : String
  success : Bool
  deriving Repr, DecidableEq

/-- Constructor of `ApiResponse`. -/
def ApiResponse.make {α : Type} (statuscode : Int) (data : α)
    (message : Option String) : ApiResponse α :=
  ⟨data, statuscode, message.getD "success", decide (statuscode < 400)⟩

/-- A user document of the user schema (string-valued fields that the hooks
and token generators read; `id` is the document identifier `this.id`). -/
structure User where
  id : String
  username : String
  email : String
  fullname : String
  avatar : String
  coverImage : String
  password : String
  refreshToken : String
  deriving Repr, DecidableEq

/-- Mongoose's `this.isModified(path)`: whether `path` is among the paths
modified since the last save. -/
def isModified (modifiedPaths : List String) (path : String) : Bool :=
  modifiedPaths.contains path

/-- Embedding of the user schema's `pre("save")` hook:

```js
userSchema.pre("save", async function (next) {
    if (!this.isModified("password")) return next();
    this.password = await bcrypt.hash(this.password, 10);
    next();
})
```

`hash pw cost` stands for the external `bcrypt.hash(pw, cost)`; the hook is
parametric in it. -/
def preSaveHook (hash : String → Nat → String) (modifiedPaths : List String)
    (u : User) : User :=
  if !(isModified modifiedPaths "password") then u
  else
    ⟨u.id, u.username, u.email, u.fullname, u.avatar, u.coverImage,
      hash u.password 10, u.refreshToken⟩

/-- Payload of the JWT signed by `generateAccessToken`. -/
structure AccessTokenPayload where
  _id : String
  username : String
  email : String
  fullname : String
  deriving Repr, DecidableEq

/-- Payload of the JWT signed by `generateRefreshToken`. -/
structure RefreshTokenPayload where
  _id : String
  deriving Repr, DecidableEq

/-- Embedding of `generateAccessToken`: signs a payload with `_id`,
`username`, `email` and `fullname` taken from the document. -/
def generateAccessToken (u : User) : AccessTokenPayload :=
  ⟨u.id, u.username, u.email, u.fullname⟩

/-- Embedding of `generateRefreshToken`: signs a payload containing only
`_id`. -/
def generateRefreshToken (u : User) : RefreshTokenPayload :=
  ⟨u.id⟩

/-! Concrete inputs used by closed theorems and witnesses. -/

/-- The spec's example store result. -/
def demoResult : UploadResult :=
  ⟨"https://cdn.example/avatar123.png", "avatar123"⟩

/-- A remote store that succeeds on every input with `demoResult`. -/
def demoStoreOk : String → UploadOptions → StoreResponse :=
  fun _ _ => StoreResponse.ok demoResult

/-- A remote store that fails on every input. -/
def demoStoreErr : String → UploadOptions → StoreResponse :=
  fun _ _ => StoreResponse.err

/-! Theorems. -/

/-- C1: on a successful upload of the existing staged file
`./tmp/avatar123.png`, the code returns the store's result unchanged but
performs no `unlinkSync`, and the local file still exists afterwards — the
success branch of `uploadToCloudinary` never deletes the local file,
contradicting the claimed cleanup-on-success. -/
theorem uploadToCloudinary_success_keeps_local_file :
    uploadToCloudinary demoStoreOk ["./tmp/avatar123.png"]
        (some "./tmp/avatar123.png")
      = (Outcome.ret (some demoResult), ["./tmp/avatar123.png"],
          ⟨[("./tmp/avatar123.png", ⟨"auto"⟩)], []⟩) := by
  decide

/-- C2: an invocation on the existing staged file `./tmp/cover9.png` whose
upload succeeds performs zero `unlinkSync` calls and leaves the staged file
on disk — the claimed exactly-one-deletion-per-invocation invariant fails on
the success branch. -/
theorem uploadToCloudinary_success_no_unlink :
    (uploadToCloudinary demoStoreOk ["./tmp/cover9.png"]
        (some "./tmp/cover9.png")).2.2.unlinks = []
    ∧ "./tmp/cover9.png" ∈ (uploadToCloudinary demoStoreOk ["./tmp/cover9.png"]
        (some "./tmp/cover9.png")).2.1 := by
  constructor
  · decide
  · decide

/-- C3: for every non-empty path whose remote upload fails while the local
file exists, `uploadToCloudinary` deletes the local file and resolves with
`null` (the store's error is swallowed, not rethrown), and afterwards the
file no longer exists. -/
theorem uploadToCloudinary_failure_deletes_and_returns_null
    (store : String → UploadOptions → StoreResponse) (files : List String)
    (p : String) (hp : p.isEmpty = false)
    (hs : store p ⟨"auto"⟩ = StoreResponse.err)
    (hf : files.contains p = true) :
    uploadToCloudinary store files (some p)
      = (Outcome.ret none, files.filter (fun q => q != p),
          ⟨[(p, ⟨"auto"⟩)], [p]⟩)
    ∧ p ∉ (uploadToCloudinary store files (some p)).2.1 := by
  have hpm : p ∈ files := by simpa using hf
  have hmain : uploadToCloudinary store files (some p)
      = (Outcome.ret none, files.filter (fun q => q != p),
          ⟨[(p, ⟨"auto"⟩)], [p]⟩) := by
    simp [uploadToCloudinary, hp, hs, hpm]
  refine ⟨hmain, ?_⟩
  rw [hmain]
  intro hmem
  have hq : (p != p) = true := (List.mem_filter.mp hmem).2
  simp at hq

/-- Witness for C3 at a concrete failing store and existing file. -/
theorem uploadToCloudinary_failure_deletes_and_returns_null_witness :
    uploadToCloudinary demoStoreErr ["./tmp/vid7.mp4"] (some "./tmp/vid7.mp4")
      = (Outcome.ret none,
          (["./tmp/vid7.mp4"] : List String).filter (fun q => q != "./tmp/vid7.mp4"),
          ⟨[("./tmp/vid7.mp4", ⟨"auto"⟩)], ["./tmp/vid7.mp4"]⟩)
    ∧ "./tmp/vid7.mp4" ∉ (uploadToCloudinary demoStoreErr ["./tmp/vid7.mp4"]
        (some "./tmp/vid7.mp4")).2.1 :=
  uploadToCloudinary_failure_deletes_and_returns_null demoStoreErr
    ["./tmp/vid7.mp4"] "./tmp/vid7.mp4" (by decide) rfl (by decide)

/-- C4: for every empty or absent path, `uploadToCloudinary` resolves with
`null` immediately, leaves the filesystem unchanged, and performs no upload
call and no deletion. -/
theorem uploadToCloudinary_empty_input_noop
    (store : String → UploadOptions → StoreResponse) (files : List String)
    (lp : Option String) (h : jsFalsy lp = true) :
    uploadToCloudinary store files lp = (Outcome.ret none, files, ⟨[], []⟩) := by
  match lp with
  | none => simp [uploadToCloudinary]
  | some p =>
    have hp : p.isEmpty = true := by simpa [jsFalsy] using h
    simp [uploadToCloudinary, hp]

/-- Witness for C4 at the empty string. -/
theorem uploadToCloudinary_empty_input_noop_witness :
    uploadToCloudinary demoStoreOk ["./tmp/x.png"] (some "")
      = (Outcome.ret none, ["./tmp/x.png"], ⟨[], []⟩) :=
  uploadToCloudinary_empty_input_noop demoStoreOk ["./tmp/x.png"] (some "")
    (by decide)

/-- C5 counterexample: with a failing store and a path whose local file does
not exist, `uploadToCloudinary` rejects (the `unlinkSync` error escapes the
`catch` block), so an exception does surface to the caller. -/
theorem uploadToCloudinary_throws_on_missing_file_cleanup :
    uploadToCloudinary demoStoreErr [] (some "./tmp/ghost.png")
      = (Outcome.thrown, [], ⟨[("./tmp/ghost.png", ⟨"auto"⟩)], ["./tmp/ghost.png"]⟩) := by
  decide

/-- C5 amended: an exception surfaces only when the failure-branch cleanup
itself fails — whenever the outcome is a rejection, the path was non-empty,
the store failed on it, and the local file was absent at cleanup time; in
every other situation the call resolves with a value. -/
theorem uploadToCloudinary_throw_characterization
    (store : String → UploadOptions → StoreResponse) (files : List String)
    (lp : Option String)
    (h : (uploadToCloudinary store files lp).1 = Outcome.thrown) :
    ∃ p, lp = some p ∧ p.isEmpty = false
      ∧ store p ⟨"auto"⟩ = StoreResponse.err
      ∧ files.contains p = false := by
  match lp with
  | none => simp [uploadToCloudinary] at h
  | some p =>
    refine ⟨p, rfl, ?_⟩
    by_cases hp : p.isEmpty = true
    · simp [uploadToCloudinary, hp] at h
    · have hp2 : p.isEmpty = false := by simpa using hp
      refine ⟨hp2, ?_⟩
      cases hstore : store p ⟨"auto"⟩ with
      | ok r => simp [uploadToCloudinary, hp2, hstore] at h
      | err =>
        refine ⟨rfl, ?_⟩
        by_cases hmem : files.contains p = true
        · have hpm : p ∈ files := by simpa using hmem
          simp [uploadToCloudinary, hp2, hstore, hpm] at h
        · simpa using hmem

/-- Witness for C5's amended theorem at a concrete rejecting invocation. -/
theorem uploadToCloudinary_throw_characterization_witness :
    ∃ p, (some "./tmp/gone.png" : Option String) = some p
      ∧ p.isEmpty = false
      ∧ demoStoreErr p ⟨"auto"⟩ = StoreResponse.err
      ∧ ([] : List String).contains p = false :=
  uploadToCloudinary_throw_characterization demoStoreErr [] (some "./tmp/gone.png")
    (by decide)

/-- C6: for every non-empty path, one invocation performs exactly one remote
upload call, on that path with `resource_type` set to `"auto"`, whatever the
store's outcome — in particular no retry follows a failed upload. -/
theorem uploadToCloudinary_single_upload_call_auto
    (store : String → UploadOptions → StoreResponse) (files : List String)
    (p : String) (hp : p.isEmpty = false) :
    (uploadToCloudinary store files (some p)).2.2.uploads = [(p, ⟨"auto"⟩)] := by
  cases hstore : store p ⟨"auto"⟩ with
  | ok r => simp [uploadToCloudinary, hp, hstore]
  | err =>
    by_cases hmem : p ∈ files
    · simp [uploadToCloudinary, hp, hstore, hmem]
    · simp [uploadToCloudinary, hp, hstore, hmem]

/-- Witness for C6 at a concrete non-empty path. -/
theorem uploadToCloudinary_single_upload_call_auto_witness :
    (uploadToCloudinary demoStoreErr ["./tmp/one.png"]
        (some "./tmp/one.png")).2.2.uploads
      = [("./tmp/one.png", (⟨"auto"⟩ : UploadOptions))] :=
  uploadToCloudinary_single_upload_call_auto demoStoreErr ["./tmp/one.png"]
    "./tmp/one.png" (by decide)

/-- C7: when the failure-branch cleanup runs on a path whose local file does
not exist, the `unlinkSync` call is still made and its error propagates: the
invocation rejects instead of treating the deletion as already satisfied. -/
theorem uploadToCloudinary_cleanup_missing_file_fails_loudly
    (store : String → UploadOptions → StoreResponse) (files : List String)
    (p : String) (hp : p.isEmpty = false)
    (hs : store p ⟨"auto"⟩ = StoreResponse.err)
    (hf : files.contains p = false) :
    uploadToCloudinary store files (some p)
      = (Outcome.thrown, files, ⟨[(p, ⟨"auto"⟩)], [p]⟩) := by
  have hpm : p ∉ files := by simpa using hf
  simp [uploadToCloudinary, hp, hs, hpm]

/-- Witness for C7 at a concrete absent file. -/
theorem uploadToCloudinary_cleanup_missing_file_fails_loudly_witness :
    uploadToCloudinary demoStoreErr ["./tmp/other.png"] (some "./tmp/lost.png")
      = (Outcome.thrown, ["./tmp/other.png"],
          ⟨[("./tmp/lost.png", ⟨"auto"⟩)], ["./tmp/lost.png"]⟩) :=
  uploadToCloudinary_cleanup_missing_file_fails_loudly demoStoreErr
    ["./tmp/other.png"] "./tmp/lost.png" (by decide) rfl (by decide)

/-- C8: the `ApiResponse` constructor stores `statuscode`, `data` and
`message` verbatim, defaults `message` to `"success"` when omitted, and sets
`success` to `true` exactly when `statuscode < 400`. -/
theorem ApiResponse_constructor_spec {α : Type} (sc : Int) (d : α)
    (m : String) (msg : Option String) :
    (ApiResponse.make sc d msg).statuscode = sc
    ∧ (ApiResponse.make sc d msg).data = d
    ∧ (ApiResponse.make sc d (some m)).message = m
    ∧ (ApiResponse.make sc d none).message = "success"
    ∧ ((ApiResponse.make sc d msg).success = true ↔ sc < 400) := by
  refine ⟨rfl, rfl, rfl, rfl, ?_⟩
  simp [ApiResponse.make]

/-- C9: the `pre("save")` hook hashes the password with `bcrypt.hash(·, 10)`
exactly when the `password` path was modified, and when it was not modified
the hook leaves the whole document — in particular the stored password —
unchanged. -/
theorem preSave_hashes_iff_password_modified (hash : String → Nat → String)
    (modifiedPaths : List String) (u : User) :
    (isModified modifiedPaths "password" = true →
        preSaveHook hash modifiedPaths u
          = ⟨u.id, u.username, u.email, u.fullname, u.avatar, u.coverImage,
              hash u.password 10, u.refreshToken⟩)
    ∧ (isModified modifiedPaths "password" = false →
        preSaveHook hash modifiedPaths u = u) := by
  constructor
  · intro hmod
    simp [preSaveHook, hmod]
  · intro hmod
    simp [preSaveHook, hmod]

/-- Witness for C9: a save that did not modify the password leaves it
unchanged, and a save that did modify it stores the bcrypt hash. -/
theorem preSave_hashes_iff_password_modified_witness :
    preSaveHook (fun pw c => String.append (toString c) pw) ["email"]
        ⟨"u1", "alice", "a@b.c", "Alice A", "av", "cv", "pw123", "rt"⟩
      = ⟨"u1", "alice", "a@b.c", "Alice A", "av", "cv", "pw123", "rt"⟩ :=
  (preSave_hashes_iff_password_modified (fun pw c => String.append (toString c) pw)
    ["email"] ⟨"u1", "alice", "a@b.c", "Alice A", "av", "cv", "pw123", "rt"⟩).2
    (by decide)

/-- C10: the refresh-token payload contains only `_id`: two users agreeing on
`id` produce identical refresh-token payloads regardless of `username`,
`email` and `fullname`, while the access-token payload embeds all four
fields. -/
theorem generateRefreshToken_payload_only_id (u v : User) (h : u.id = v.id) :
    generateRefreshToken u = generateRefreshToken v
    ∧ (generateRefreshToken u)._id = u.id
    ∧ generateAccessToken u = ⟨u.id, u.username, u.email, u.fullname⟩ := by
  refine ⟨?_, rfl, rfl⟩
  simp [generateRefreshToken, h]

/-- Witness for C10: two users sharing an id but differing in username,
email and fullname get the same refresh-token payload. -/
theorem generateRefreshToken_payload_only_id_witness :
    generateRefreshToken ⟨"id9", "alice", "a@x.y", "Alice", "av", "cv", "p1", "r1"⟩
      = generateRefreshToken ⟨"id9", "bob", "b@x.y", "Bob", "av2", "cv2", "p2", "r2"⟩
    ∧ (generateRefreshToken
        ⟨"id9", "alice", "a@x.y", "Alice", "av", "cv", "p1", "r1"⟩)._id = "id9"
    ∧ generateAccessToken ⟨"id9", "alice", "a@x.y", "Alice", "av", "cv", "p1", "r1"⟩
      = ⟨"id9", "alice", "a@x.y", "Alice"⟩ :=
  generateRefreshToken_payload_only_id
    ⟨"id9", "alice", "a@x.y", "Alice", "av", "cv", "p1", "r1"⟩
    ⟨"id9", "bob", "b@x.y", "Bob", "av2", "cv2", "p2", "r2"⟩ rfl
